import Mathlib

/-!
Verification of the react-express greeting application.

The development shallowly embeds the two sides of the repository:

* `src/server/index.js` — an Express server whose `cors` middleware is
  configured with a custom `origin(origin, callback)` function derived from
  the `CLIENT_URL` environment variable, and whose single route
  `GET /api/home` answers with a fixed JSON document.

* `src/client/pages/index.tsx` — two React components: the legacy `index`
  component (a bare `fetch` → `json` → two `setState` chain) and the revised
  `IndexPage` component (an `AbortController`-guarded `load` function with
  `message` / `people` / `error` / `loading` state cells).

JavaScript values that matter to the code (JSON bodies, property access,
truthiness, `??`, `Array.isArray`) are embedded explicitly so that the Lean
functions follow the source line by line.
-/

/-- JavaScript values as the client and server manipulate them: the JSON
values plus `undefined` (the result of accessing an absent property). -/
inductive JsValue where
  | undefined : JsValue
  | null : JsValue
  | bool (b : Bool) : JsValue
  | num (n : Int) : JsValue
  | str (s : String) : JsValue
  | arr (xs : List JsValue) : JsValue
  | obj (fields : List (String × JsValue)) : JsValue

/-- JavaScript truthiness of a `string | undefined` value: `undefined` and
the empty string are falsy, every other string is truthy.  `none` models an
unset environment variable or an absent request header. -/
def jsTruthyS : Option String → Bool
  | none => false
  | some s => s != ""

/-- JavaScript property access `v.k` for non-null values: a field lookup on
objects (first binding wins), `undefined` on every other value.  Access on
`null` throws a TypeError and is handled separately at its use site. -/
def getField (v : JsValue) (k : String) : JsValue :=
  match v with
  | .obj fields =>
      match fields.find? (fun kv => kv.1 == k) with
      | some kv => kv.2
      | none => .undefined
  | _ => .undefined

/-- JavaScript nullish coalescing `v ?? fallback`. -/
def jsNullish (v fallback : JsValue) : JsValue :=
  match v with
  | .undefined => fallback
  | .null => fallback
  | _ => v

/-- `Array.isArray(v) ? v : []` — the element list of an array value, and
the empty list for every non-array value. -/
def jsArrayElems (v : JsValue) : List JsValue :=
  match v with
  | .arr xs => xs
  | _ => []

/-! ## Server: origin policy (src/server/index.js lines 10–28) -/

/-- A character removed by JavaScript's `String.prototype.trim`: the
WhiteSpace and LineTerminator characters (restricted here to the common
ones — ASCII whitespace, no-break space and the BOM; the rarer Unicode
space separators are omitted). -/
def jsWhitespace (c : Char) : Bool :=
  c = ' ' || c = '\t' || c = '\n' || c = '\r' || c = '\x0b' || c = '\x0c' ||
    c = '\xa0' || c = '\ufeff'

/-- JavaScript `s.trim()`: strip leading and trailing whitespace. -/
def jsTrim (s : String) : String :=
  String.mk
    (((s.toList.dropWhile jsWhitespace).reverse.dropWhile jsWhitespace).reverse)

/-- Worker for `split(",")`: `acc` holds the reversed characters of the
piece being built. -/
def jsSplitCommaAux : List Char → List Char → List String
  | [], acc => [String.mk acc.reverse]
  | c :: rest, acc =>
      if c = ',' then String.mk acc.reverse :: jsSplitCommaAux rest []
      else jsSplitCommaAux rest (c :: acc)

/-- JavaScript `s.split(",")`: the comma-separated pieces of `s` (the empty
string yields `[""]`, like in JS). -/
def jsSplitComma (s : String) : List String :=
  jsSplitCommaAux s.toList []

/-- The module-level allowlist of src/server/index.js:

    const allowedOrigins =
      clientUrlEnv && clientUrlEnv !== "*"
        ? clientUrlEnv.split(",").map((s) => s.trim()).filter(Boolean)
        : null;

`clientUrlEnv` is `process.env.CLIENT_URL` (`none` when unset); the guard is
JS truthiness, `filter(Boolean)` drops entries that trimmed to the empty
string. -/
def allowedOrigins (clientUrlEnv : Option String) : Option (List String) :=
  if jsTruthyS clientUrlEnv && !(clientUrlEnv == some "*") then
    some (((jsSplitComma (clientUrlEnv.getD "")).map jsTrim).filter
      (fun s => s != ""))
  else
    none

/-- Outcome of the `origin(origin, callback)` function: `callback(null, true)`
or `callback(new Error(...))`. -/
inductive CorsDecision where
  | allow : CorsDecision
  | reject (msg : String) : CorsDecision
deriving DecidableEq

/-- The `origin(origin, callback)` function of src/server/index.js:

    if (!origin) return callback(null, true);
    if (!clientUrlEnv || clientUrlEnv === "*") return callback(null, true);
    if (allowedOrigins?.includes(origin)) return callback(null, true);
    return callback(new Error(`CORS blocked for origin: ...`));

`origin` is the request's `Origin` header (`none` when the header is
absent); `!origin` is JS falsiness, so the empty string also passes the
first guard. -/
def originCheck (clientUrlEnv : Option String) (origin : Option String) :
    CorsDecision :=
  if !(jsTruthyS origin) then .allow
  else if !(jsTruthyS clientUrlEnv) || clientUrlEnv == some "*" then .allow
  else if ((allowedOrigins clientUrlEnv).getD []).contains (origin.getD "")
    then .allow
  else .reject ("CORS blocked for origin: " ++ origin.getD "")

/-! ## Server: the cors middleware response headers

src/server/index.js passes the function above as the `origin` option of the
`cors` npm middleware (v2.8.5).  For a function-valued `origin` option the
middleware calls it and, on `callback(null, true)`, runs `configureOrigin`
with `options.origin = true`: the `Access-Control-Allow-Origin` header is set
to `isAllowed ? requestOrigin : false` with `isAllowed = !!true`, and
`applyHeaders` drops a header whose value is falsy.  On `callback(err)` the
middleware hands `err` to `next`, so the route handler never runs. -/

/-- Result of the cors middleware on a plain (non-preflight) request:
either the request proceeds to the route handler carrying an optional
`Access-Control-Allow-Origin` header, or the error is passed to `next`. -/
inductive CorsOutcome where
  | pass (acao : Option String) : CorsOutcome
  | errorOut (msg : String) : CorsOutcome
deriving DecidableEq

/-- The cors middleware of src/server/index.js applied to a request with the
given `Origin` header: an allowed request reflects a truthy request origin
into `Access-Control-Allow-Origin` (the header is omitted when the request
carried no truthy origin); a rejected request goes to the error path. -/
def corsMiddleware (clientUrlEnv : Option String) (requestOrigin : Option String) :
    CorsOutcome :=
  match originCheck clientUrlEnv requestOrigin with
  | .reject msg => .errorOut msg
  | .allow => .pass (if jsTruthyS requestOrigin then requestOrigin else none)

/-! ## Server: GET /api/home (src/server/index.js lines 30–35) -/

/-- One JSON escape step of `JSON.stringify` for a single character. -/
def jsonEscapeChar (c : Char) : String :=
  if c = '"' then "\\\""
  else if c = '\\' then "\\\\"
  else if c = '\x08' then "\\b"
  else if c = '\x09' then "\\t"
  else if c = '\x0a' then "\\n"
  else if c = '\x0c' then "\\f"
  else if c = '\x0d' then "\\r"
  else if c.toNat < 0x20 then
    "\\u00" ++ String.singleton (Nat.digitChar (c.toNat / 16)) ++
      String.singleton (Nat.digitChar (c.toNat % 16))
  else String.singleton c

/-- JSON string escaping of `JSON.stringify`. -/
def jsonEscape (s : String) : String :=
  String.join (s.toList.map jsonEscapeChar)

/-- A JSON-quoted string. -/
def jsonQuote (s : String) : String :=
  "\"" ++ jsonEscape s ++ "\""

mutual

/-- `JSON.stringify`, as used by Express's `res.json` (no replacer, no
indentation).  `undefined` never occurs in values handed to `res.json` (they
come from object/array/string literals or `JSON.parse`). -/
def jsonStringify : JsValue → String
  | .null => "null"
  | .undefined => "null"
  | .bool b => cond b "true" "false"
  | .num n => toString n
  | .str s => jsonQuote s
  | .arr xs => "[" ++ jsonStringifyItems xs ++ "]"
  | .obj fields => "\x7b" ++ jsonStringifyMembers fields ++ "\x7d"

/-- Comma-separated serialization of the elements of a JSON array. -/
def jsonStringifyItems : List JsValue → String
  | [] => ""
  | [x] => jsonStringify x
  | x :: y :: rest => jsonStringify x ++ "," ++ jsonStringifyItems (y :: rest)

/-- Comma-separated serialization of the members of a JSON object. -/
def jsonStringifyMembers : List (String × JsValue) → String
  | [] => ""
  | [kv] => jsonQuote kv.1 ++ ":" ++ jsonStringify kv.2
  | kv :: kv2 :: rest =>
      jsonQuote kv.1 ++ ":" ++ jsonStringify kv.2 ++ "," ++
        jsonStringifyMembers (kv2 :: rest)

end

/-- The object literal of the `/api/home` handler. -/
def homeDocument : JsValue :=
  .obj [("message", .str "Hello World!"),
        ("people", .arr [.str "Harry", .str "Jack", .str "Mary"])]

/-- An incoming HTTP request, reduced to the parts the server reads: the
handler reads nothing, the cors middleware reads the `Origin` header. -/
structure HttpRequest where
  origin : Option String
deriving DecidableEq

/-- Status and serialized body produced by a route handler. -/
structure HttpReply where
  status : Nat
  body : String
deriving DecidableEq

/-- The `GET /api/home` handler: `res.json({ message: ..., people: ... })` —
status 200 and the serialized `homeDocument`, independent of the request. -/
def homeHandler (_req : HttpRequest) : HttpReply :=
  { status := 200, body := jsonStringify homeDocument }

/-! ## Client: the revised IndexPage component (src/client/pages/index.tsx)

`IndexPage` holds four state cells (`message`, `people`, `error`,
`loading`).  Its mount effect creates an `AbortController`, runs the async
`load` function, and returns a cleanup that aborts the controller.  `load`
runs synchronously up to the `await fetch(...)`; the remainder (the status
check, `response.json()`, the setters, `catch` and `finally`) runs in one
continuation when the fetch pipeline settles.  React (v19, automatic
batching) applies the setter calls of that continuation as a single update
and ignores setter calls made after the owning component instance has
unmounted. -/

/-- A value thrown into the `catch` block of `load`: the `AbortError`
`DOMException` produced by cancellation, any other `Error` (read through
`.message`), or a non-`Error` value. -/
inductive JsThrown where
  | abortError : JsThrown
  | err (msg : String) : JsThrown
  | nonError : JsThrown

/-- Outcome of `response.json()`: a parsed JSON value, or a rejection. -/
inductive JsonResult where
  | parsed (v : JsValue) : JsonResult
  | jsonRejected (t : JsThrown) : JsonResult

/-- How the fetch pipeline of one mount settles: the `fetch` promise
rejects, or it resolves with a status, a status text, and a body whose
`response.json()` outcome is recorded. -/
inductive FetchEvent where
  | rejected (t : JsThrown) : FetchEvent
  | resolved (status : Nat) (statusText : String) (jsonResult : JsonResult) :
      FetchEvent

/-- The four state cells of `IndexPage`. -/
structure ReactState where
  message : JsValue
  people : List JsValue
  error : Option String
  loading : Bool

/-- Initial state:
`useState("")`, `useState<string[]>([])`, `useState<string | null>(null)`,
`useState(true)`. -/
def initialState : ReactState :=
  { message := .str "", people := [], error := none, loading := true }

/-- A React setter call: applies the update when the owning component
instance is still mounted, and is ignored otherwise. -/
def setIf (mounted : Bool) (upd : ReactState → ReactState) (s : ReactState) :
    ReactState :=
  match mounted with
  | true => upd s
  | false => s

/-- `response.ok`: status in the inclusive range 200–299. -/
def okStatus (status : Nat) : Bool :=
  200 ≤ status && status ≤ 299

/-- The `catch` block of `load`:

    if (e instanceof DOMException && e.name === "AbortError") return;
    setError(e instanceof Error ? e.message : "Failed to load");
-/
def catchStep (mounted : Bool) (t : JsThrown) (s : ReactState) : ReactState :=
  match t with
  | .abortError => s
  | .err msg => setIf mounted (fun st => { st with error := some msg }) s
  | .nonError =>
      setIf mounted (fun st => { st with error := some "Failed to load" }) s

/-- The `finally` block of `load`: `setLoading(false)` (it also runs after
the early `return` of the `AbortError` branch). -/
def finallyStep (mounted : Bool) (s : ReactState) : ReactState :=
  setIf mounted (fun st => { st with loading := false }) s

/-- The error thrown by `load` on a non-success status:
`new Error(\x60Request failed: $\x7bresponse.status\x7d $\x7bresponse.statusText\x7d\x60)`. -/
def requestFailedMsg (status : Nat) (statusText : String) : String :=
  "Request failed: " ++ toString status ++ " " ++ statusText

/-- The `.message` of the TypeError raised by `data.message` when the parsed
body `data` is JSON `null` (property access on `null` throws). -/
def nullAccessMsg : String :=
  "Cannot read properties of null (reading message)"

/-- The settle-time continuation of `load`, starting from state `s`:

      const response = await fetch("/api/home", { signal: controller.signal });
      if (!response.ok) {
        throw new Error(...);
      }
      const data = await response.json();
      setMessage(data.message ?? "");
      setPeople(Array.isArray(data.people) ? data.people : []);
    catch: see `catchStep`;  finally: see `finallyStep`.

`mounted` records whether the owning instance is still mounted when the
pipeline settles; all setter calls of the continuation see that flag. -/
def loadSettle (mounted : Bool) (ev : FetchEvent) (s : ReactState) :
    ReactState :=
  finallyStep mounted
    (match ev with
     | .rejected t => catchStep mounted t s
     | .resolved status statusText jsonResult =>
         if okStatus status then
           match jsonResult with
           | .parsed v =>
               match v with
               | .null => catchStep mounted (.err nullAccessMsg) s
               | _ =>
                   setIf mounted
                     (fun st => { st with
                       people := jsArrayElems (getField v "people") })
                     (setIf mounted
                       (fun st => { st with
                         message := jsNullish (getField v "message") (.str "") })
                       s)
           | .jsonRejected t => catchStep mounted t s
         else catchStep mounted (.err (requestFailedMsg status statusText)) s)

/-- The synchronous start of `load`, run at mount while the instance is
mounted: `setError(null); setLoading(true)`. -/
def loadStart (s : ReactState) : ReactState :=
  { s with error := none, loading := true }

/-- One full mount-to-settle run of `IndexPage`'s effect: the state of the
instance after its fetch pipeline settles with event `ev`, where `mounted`
says whether the instance was still mounted at settle time. -/
def loadRun (mounted : Bool) (ev : FetchEvent) : ReactState :=
  loadSettle mounted ev (loadStart initialState)

/-- The cleanup of the mount effect is `() => controller.abort()`; aborting
the controller makes a still-pending `fetch` or `response.json()` reject
with the `AbortError` `DOMException`.  So when the component unmounts before
the pipeline settles, the settle event is one of these. -/
def settledByAbort (ev : FetchEvent) : Prop :=
  ev = .rejected .abortError ∨
    ∃ status statusText,
      ev = .resolved status statusText (.jsonRejected .abortError)

/-! ## Client: the rendered output of IndexPage

      {loading ? <div>Loading…</div> : null}
      {error ? <div>Error: {error}</div> : null}
      {!loading && !error ? <div>{message}</div> : null}
      {people.map((person, index) => (<div key={index}>{person}</div>))}
-/

/-- JS truthiness of the `error` cell (`string | null`): `null` and the
empty string are falsy. -/
def jsTruthyErr : Option String → Bool
  | none => false
  | some msg => msg != ""

/-- Whether the loading indicator is rendered. -/
def showLoading (s : ReactState) : Bool :=
  s.loading

/-- Whether the error message is rendered. -/
def showError (s : ReactState) : Bool :=
  jsTruthyErr s.error

/-- Whether the loaded message is rendered. -/
def showMessage (s : ReactState) : Bool :=
  !s.loading && !jsTruthyErr s.error

/-- Number of the three display states active in the rendered output. -/
def countShown (s : ReactState) : Nat :=
  (cond (showLoading s) 1 0) + (cond (showError s) 1 0) +
    (cond (showMessage s) 1 0)

/-- The person items rendered by `IndexPage`:
`people.map((person, index) => <div key={index}>{person}</div>)` — one item
per person, keyed by its position. -/
def indexPagePersonItems (s : ReactState) : List (Nat × JsValue) :=
  s.people.enum

/-- The states that actually reach the screen for one instance: the mount
render (the starting setters change nothing observable before the render
after `loadStart`), and the single batched re-render produced when the
pipeline settles while the instance is mounted.  A settle after unmount
produces no render, and React batches the continuation's setter calls into
one update, so no interleaving of `catch`/`finally` is ever rendered. -/
inductive RenderedState : ReactState → Prop where
  | mount : RenderedState (loadStart initialState)
  | settle (ev : FetchEvent) : RenderedState (loadRun true ev)

/-! ## Client: the legacy index component (src/client/pages/index.tsx)

    fetch(...).then(response => response.json()).then(data => {
      setMessage(data.message);
      setPeople(data.people);
    })

No status check, no catch, no abort: a rejection anywhere in the chain is
unhandled and runs no setter; on a parsed body the two setters store the
raw property values. -/

/-- The two state cells of the legacy component:
`useState("")`, `useState([])`. -/
structure LegacyState where
  message : JsValue
  people : JsValue

/-- Initial legacy state. -/
def legacyInit : LegacyState :=
  { message := .str "", people := .arr [] }

/-- One mount-to-settle run of the legacy component. `data.message` on a
`null` body throws inside the `then` callback (unhandled, before any
setter); any rejection leaves the state untouched. -/
def legacyRun (ev : FetchEvent) : LegacyState :=
  match ev with
  | .resolved _ _ (.parsed v) =>
      match v with
      | .null => legacyInit
      | _ => { message := getField v "message", people := getField v "people" }
  | _ => legacyInit

/-- The person items rendered by the legacy component:
`people.map((person, index) => <div key={index}>{person}</div>)`; `none`
models the TypeError crash of `.map` on a non-array `people` value. -/
def legacyPersonItems (s : LegacyState) : Option (List (Nat × JsValue)) :=
  match s.people with
  | .arr xs => some xs.enum
  | _ => none

/-! ## Theorems -/

/-- C4: every request to GET /api/home gets HTTP 200 with exactly the JSON
document with message "Hello World!" and people Harry, Jack, Mary; any two
calls return byte-identical bodies (the response is a constant, independent
of the request). -/
theorem c4_home_constant :
    (∀ req : HttpRequest,
        homeHandler req =
          { status := 200,
            body := "\x7b\"message\":\"Hello World!\",\"people\":[\"Harry\",\"Jack\",\"Mary\"]\x7d" }) ∧
      (∀ r1 r2 : HttpRequest, homeHandler r1 = homeHandler r2) := by
  have hb : jsonStringify homeDocument =
      "\x7b\"message\":\"Hello World!\",\"people\":[\"Harry\",\"Jack\",\"Mary\"]\x7d" := by
    decide
  exact ⟨fun req => by simp [homeHandler, hb], fun _ _ => rfl⟩

/-- C1 (counterexample): with allowlist A = ["https://a.example"] configured,
a request whose Origin header is present but empty is allowed by the origin
check, although A is set and not the wildcard, the request does carry an
Origin header, and the empty string is not an entry of A — refuting the
claim's "in every other case the check fails". -/
theorem c1_counterexample :
    originCheck (some "https://a.example") (some "") = .allow ∧
      (some "" : Option String) ≠ none ∧
      allowedOrigins (some "https://a.example") = some ["https://a.example"] ∧
      "" ∉ ["https://a.example"] := by
  decide

/-- C1 (amended): the origin check allows the request iff CLIENT_URL is
JS-falsy (unset or empty) or the wildcard "*", or the request's Origin
header is JS-falsy (absent or the empty string), or the origin is exactly
(case-sensitively) equal to some entry of the configured allowlist; in
every other case the check fails with the CORS-blocked error carrying the
origin. -/
theorem c1_allow_iff (clientUrlEnv origin : Option String) :
    (originCheck clientUrlEnv origin = .allow ↔
      (jsTruthyS clientUrlEnv = false ∨ clientUrlEnv = some "*") ∨
        jsTruthyS origin = false ∨
        (∃ l, allowedOrigins clientUrlEnv = some l ∧ origin.getD "" ∈ l)) ∧
      (originCheck clientUrlEnv origin = .allow ∨
        originCheck clientUrlEnv origin =
          .reject ("CORS blocked for origin: " ++ origin.getD "")) := by
  constructor
  · unfold originCheck
    by_cases h1 : jsTruthyS origin
    · by_cases h2 : jsTruthyS clientUrlEnv
      · by_cases h3 : clientUrlEnv = some "*"
        · simp [h1, h2, h3]
        · cases hA : allowedOrigins clientUrlEnv with
          | none =>
              exfalso
              rw [allowedOrigins, if_pos] at hA
              · exact Option.noConfusion hA
              · simp [h2, h3]
          | some l =>
              by_cases h4 : (origin.getD "") ∈ l
              · simp [h1, h2, h3, hA, h4, List.contains, List.elem_iff]
              · simp [h1, h2, h3, hA, h4, List.contains, List.elem_iff]
      · simp [h1, h2]
    · simp [h1]
  · unfold originCheck
    by_cases h1 : jsTruthyS origin
    · by_cases h2 : !(jsTruthyS clientUrlEnv) || clientUrlEnv == some "*"
      · exact Or.inl (by simp [h1, h2])
      · by_cases h3 :
          ((allowedOrigins clientUrlEnv).getD []).contains (origin.getD "")
        · exact Or.inl (by
            simp [h1, h2]
            simpa [List.contains, List.elem_iff] using h3)
        · exact Or.inr (by
            simp [h1, h2]
            simpa [List.contains, List.elem_iff] using h3)
    · exact Or.inl (by simp [h1])

/-- C7 (counterexample): with CLIENT_URL unset the allow decision is
unconditional (the allowlist is null), yet the response's
Access-Control-Allow-Origin is the reflected request origin, not the
literal "*". -/
theorem c7_counterexample :
    corsMiddleware none (some "https://app.example") =
        .pass (some "https://app.example") ∧
      CorsOutcome.pass (some "https://app.example") ≠ .pass (some "*") ∧
      allowedOrigins none = none := by
  decide

/-- C7 (amended): on every allowed request to GET /api/home the
Access-Control-Allow-Origin header reflects the request's Origin header
whenever that header is truthy — both when an allowlist entry matched it
and when the allow decision was unconditional — and is omitted when the
request carries no truthy Origin header; the literal "*" is never produced
(except by reflection of a literal "*" origin). -/
theorem c7_acao_reflects (clientUrlEnv requestOrigin : Option String)
    (h : originCheck clientUrlEnv requestOrigin = .allow) :
    corsMiddleware clientUrlEnv requestOrigin =
      .pass (if jsTruthyS requestOrigin then requestOrigin else none) := by
  simp [corsMiddleware, h]

/-- Witness for C7: a request origin allowed by the configured allowlist is
reflected into the Access-Control-Allow-Origin header. -/
theorem c7_witness :
    corsMiddleware (some "https://a.example") (some "https://a.example") =
      .pass (some "https://a.example") :=
  c7_acao_reflects (some "https://a.example") (some "https://a.example")
    (by decide)

/-- C8: for CLIENT_URL set, non-empty and not "*", the allowlist used for
origin matching consists of the comma-separated entries of CLIENT_URL with
surrounding whitespace trimmed and empty entries removed: a non-empty
declared origin is allowed iff some comma-separated piece of CLIENT_URL
trims to it; in particular under
CLIENT_URL="https://a.example, https://b.example" a request declaring
Origin "https://b.example" (without the leading space) is allowed. -/
theorem c8_allowlist_trimmed (c o : String) (hc1 : c ≠ "") (hc2 : c ≠ "*")
    (ho : o ≠ "") :
    (originCheck (some c) (some o) = .allow ↔
        ∃ e ∈ jsSplitComma c, jsTrim e = o) ∧
      originCheck (some "https://a.example, https://b.example")
        (some "https://b.example") = .allow := by
  constructor
  · have h1 : jsTruthyS (some o) = true := by simp [jsTruthyS, ho]
    have h2 : jsTruthyS (some c) = true := by simp [jsTruthyS, hc1]
    unfold originCheck
    simp [h1, h2, hc2, allowedOrigins, List.contains, List.elem_iff,
      List.mem_filter, List.mem_map, ho]
  · decide

/-- Witness for C8: the comma-separated CLIENT_URL example — the second
entry carries a leading space, trimmed away for matching. -/
theorem c8_witness :
    (∃ e ∈ jsSplitComma "https://a.example, https://b.example",
        jsTrim e = "https://b.example") ∧
      originCheck (some "https://a.example, https://b.example")
        (some "https://b.example") = .allow := by
  have h := c8_allowlist_trimmed "https://a.example, https://b.example"
    "https://b.example" (by decide) (by decide) (by decide)
  exact ⟨h.1.mp h.2, h.2⟩

/-- C2: if the component is unmounted before the in-flight fetch settles,
the fetch is cancelled (the settle event is the AbortError, delivered to an
unmounted instance) and the cancellation produces no state update at all:
the state equals the pre-settle state (no write to message, people, error
or loading lands after unmount — React discards setter calls of unmounted
instances, so the `finally` block's setLoading(false) has no effect) and in
particular no Failed transition and no error surfaced. -/
theorem c2_cancellation_silent (ev : FetchEvent) (h : settledByAbort ev) :
    loadRun false ev = initialState ∧ (loadRun false ev).error = none := by
  rcases h with h | ⟨status, statusText, h⟩ <;> subst h
  · exact ⟨rfl, rfl⟩
  · cases hok : okStatus status <;>
      simp [loadRun, loadSettle, loadStart, initialState, catchStep,
        finallyStep, setIf, hok]

/-- Witness for C2: the in-flight fetch rejecting with the AbortError after
unmount leaves the state untouched. -/
theorem c2_witness :
    loadRun false (.rejected .abortError) = initialState ∧
      (loadRun false (.rejected .abortError)).error = none :=
  c2_cancellation_silent (.rejected .abortError) (Or.inl rfl)

/-- C3 (counterexample): a fetch resolving with HTTP 200 whose JSON body is
`null` does not enter the Loaded state — property access on the null body
throws a TypeError, so the run ends with a non-null error (Failed), not
with the claimed Loaded("", []). -/
theorem c3_counterexample :
    (loadRun true (.resolved 200 "OK" (.parsed .null))).error =
        some nullAccessMsg ∧
      (loadRun true (.resolved 200 "OK" (.parsed .null))).error ≠ none ∧
      okStatus 200 = true :=
  ⟨rfl, fun h => Option.noConfusion h, rfl⟩

/-- C3 (amended): for every fetch that resolves with an HTTP success status
and a parsed JSON body other than `null`, the client enters the Loaded
state — error null, loading false — with message `data.message ?? ""`
(the empty string when the message key is absent or null) and people
`Array.isArray(data.people) ? data.people : []` (the empty sequence when
the people key is absent or not an array); a `null` body instead raises a
TypeError and transitions to Failed. -/
theorem c3_success_defaults (status : Nat) (statusText : String) (v : JsValue)
    (hok : okStatus status = true) (hv : v ≠ .null) :
    loadRun true (.resolved status statusText (.parsed v)) =
      { message := jsNullish (getField v "message") (.str ""),
        people := jsArrayElems (getField v "people"),
        error := none, loading := false } := by
  cases v <;>
    simp_all [loadRun, loadSettle, loadStart, initialState, setIf,
      finallyStep, hok]

/-- Witness for C3: the two example bodies of the claim — a body with only
a message key yields Loaded("hi", []), and the empty object body yields
Loaded("", []). -/
theorem c3_witness :
    loadRun true (.resolved 200 "OK"
        (.parsed (.obj [("message", .str "hi")]))) =
      { message := .str "hi", people := [], error := none, loading := false } ∧
    loadRun true (.resolved 200 "OK" (.parsed (.obj []))) =
      { message := .str "", people := [], error := none, loading := false } :=
  ⟨c3_success_defaults 200 "OK" (.obj [("message", .str "hi")]) (by decide)
      (fun h => JsValue.noConfusion h),
   c3_success_defaults 200 "OK" (.obj []) (by decide)
      (fun h => JsValue.noConfusion h)⟩

/-- C9: in the revised IndexPage component, whenever the run of one mount
ends with a non-null error cell (Failed displayed), the message cell is
still the empty string and the people cell is still the empty list: the
failure branch never stores data from the failed request, because the two
data setters only run on the success path, which no failure follows. -/
theorem c9_failure_keeps_defaults (mounted : Bool) (ev : FetchEvent)
    (h : (loadRun mounted ev).error ≠ none) :
    (loadRun mounted ev).message = .str "" ∧
      (loadRun mounted ev).people = [] := by
  rcases ev with t | ⟨status, statusText, jr⟩
  · cases t <;> cases mounted <;>
      simp_all [loadRun, loadSettle, loadStart, initialState, catchStep,
        finallyStep, setIf]
  · rcases jr with v | t
    · rcases hok : okStatus status with _ | _ <;> cases v <;> cases mounted <;>
        simp_all [loadRun, loadSettle, loadStart, initialState, catchStep,
          finallyStep, setIf, hok]
    · rcases hok : okStatus status with _ | _ <;> cases t <;> cases mounted <;>
        simp_all [loadRun, loadSettle, loadStart, initialState, catchStep,
          finallyStep, setIf, hok]

/-- Witness for C9: a network failure ends Failed with message and people
still at their defaults. -/
theorem c9_witness :
    (loadRun true (.rejected (.err "boom"))).message = .str "" ∧
      (loadRun true (.rejected (.err "boom"))).people = [] :=
  c9_failure_keeps_defaults true (.rejected (.err "boom"))
    (fun h => Option.noConfusion h)

/-- The failure condition exactly as the claim for C5 states it (spec
words, for comparison with the code model): (a) the fetch resolves with a
non-success HTTP status, or (b) the fetch pipeline (the fetch itself or the
body read) rejects for a reason other than cancellation. -/
def specFailureCond : FetchEvent → Bool
  | .rejected .abortError => false
  | .rejected _ => true
  | .resolved status _ jsonResult =>
      if okStatus status then
        match jsonResult with
        | .parsed _ => false
        | .jsonRejected .abortError => false
        | .jsonRejected _ => true
      else true

/-- The failure condition amended by the null-body case: as
`specFailureCond`, plus (c) the fetch resolves with a success status and a
parsed body equal to JSON `null` (property access then throws a
TypeError). -/
def specFailureCondAmended : FetchEvent → Bool
  | .rejected .abortError => false
  | .rejected _ => true
  | .resolved status _ jsonResult =>
      if okStatus status then
        match jsonResult with
        | .parsed .null => true
        | .parsed _ => false
        | .jsonRejected .abortError => false
        | .jsonRejected _ => true
      else true

/-- C5 (counterexample): a success-status response whose parsed body is
JSON `null` ends in Failed (non-null error) although neither (a) a
non-success status nor (b) a non-cancellation rejection occurred — refuting
the claim's "exactly when". -/
theorem c5_counterexample :
    (loadRun true (.resolved 201 "Created" (.parsed .null))).error =
        some nullAccessMsg ∧
      specFailureCond (.resolved 201 "Created" (.parsed .null)) = false :=
  ⟨rfl, rfl⟩

/-- C5 (amended): the run of a mounted instance ends Failed (non-null
error) exactly when (a) the fetch resolves with a non-success status — the
error message then contains the status code and the status text; (b) the
fetch pipeline rejects for a reason other than cancellation — the error
message is the rejection's own description when it is an Error and the
generic fallback text otherwise; or (c) the success body parses to JSON
`null`, whose property access throws a TypeError. -/
theorem c5_failed_iff (ev : FetchEvent) :
    ((loadRun true ev).error.isSome = specFailureCondAmended ev) ∧
      (∀ status statusText jsonResult,
          ev = .resolved status statusText jsonResult →
            okStatus status = false →
              (loadRun true ev).error =
                  some (requestFailedMsg status statusText) ∧
                ∃ pre mid post,
                  requestFailedMsg status statusText =
                    pre ++ toString status ++ mid ++ statusText ++ post) ∧
      (∀ msg, ev = .rejected (.err msg) →
          (loadRun true ev).error = some msg) ∧
      (ev = .rejected .nonError →
          (loadRun true ev).error = some "Failed to load") ∧
      (∀ status statusText msg,
          ev = .resolved status statusText (.jsonRejected (.err msg)) →
            okStatus status = true → (loadRun true ev).error = some msg) ∧
      (∀ status statusText,
          ev = .resolved status statusText (.jsonRejected .nonError) →
            okStatus status = true →
              (loadRun true ev).error = some "Failed to load") := by
  refine ⟨?_, ?_, ?_, ?_, ?_, ?_⟩
  · rcases ev with t | ⟨status, statusText, jr⟩
    · cases t <;> rfl
    · rcases jr with v | t
      · cases hok : okStatus status <;> cases v <;>
          simp [loadRun, loadSettle, loadStart, initialState, catchStep,
            finallyStep, setIf, specFailureCondAmended, hok]
      · cases hok : okStatus status <;> cases t <;>
          simp [loadRun, loadSettle, loadStart, initialState, catchStep,
            finallyStep, setIf, specFailureCondAmended, hok]
  · rintro status statusText jr rfl hok
    refine ⟨?_, "Request failed: ", " ", "", ?_⟩
    · simp [loadRun, loadSettle, loadStart, catchStep, finallyStep, setIf,
        hok]
    · show requestFailedMsg status statusText =
        "Request failed: " ++ toString status ++ " " ++ statusText ++ ""
      rw [String.append_empty]
      rfl
  · rintro msg rfl; rfl
  · rintro rfl; rfl
  · rintro status statusText msg rfl hok
    simp [loadRun, loadSettle, loadStart, catchStep, finallyStep, setIf, hok]
  · rintro status statusText rfl hok
    simp [loadRun, loadSettle, loadStart, catchStep, finallyStep, setIf, hok]

/-- Witness for C5: a 500 response ends Failed with a message containing
the status code 500 and the status text. -/
theorem c5_witness :
    (loadRun true (.resolved 500 "Internal Server Error"
        (.parsed (.obj [])))).error =
        some (requestFailedMsg 500 "Internal Server Error") ∧
      ∃ pre mid post,
        requestFailedMsg 500 "Internal Server Error" =
          pre ++ toString 500 ++ mid ++ "Internal Server Error" ++ post :=
  (c5_failed_iff (.resolved 500 "Internal Server Error"
      (.parsed (.obj [])))).2.1 500 "Internal Server Error"
    (.parsed (.obj [])) rfl (by decide)

/-- Any state whose loading flag is off renders exactly one display state:
the error message when the error cell is truthy, the loaded message
otherwise. -/
theorem countShown_of_not_loading (s : ReactState) (h : s.loading = false) :
    countShown s = 1 := by
  rcases s with ⟨m, p, e, l⟩
  simp only at h
  subst h
  cases e with
  | none => rfl
  | some msg =>
      by_cases hm : msg = ""
      · subst hm; rfl
      · have hb : (msg != "") = true := by simp [hm]
        simp [countShown, showLoading, showError, showMessage, jsTruthyErr,
          hb]

/-- The `finally` block runs on every settle of a mounted instance, so the
loading flag is off after any settle. -/
theorem settle_not_loading (ev : FetchEvent) :
    (loadRun true ev).loading = false :=
  rfl

/-- C6: at any rendered instant after mount exactly one of the three
display states Loading, Failed (error), Loaded (message) is active: on the
mount render the loading indicator alone, and on the single batched
re-render of a settle — where loading is false — exactly one of the error
message and the loaded message. -/
theorem c6_exactly_one_display (s : ReactState) (h : RenderedState s) :
    countShown s = 1 := by
  cases h with
  | mount => rfl
  | settle ev => exact countShown_of_not_loading _ (settle_not_loading ev)

/-- Witness for C6: the mount render shows exactly one display state. -/
theorem c6_witness : countShown (loadStart initialState) = 1 :=
  c6_exactly_one_display (loadStart initialState) RenderedState.mount

/-- C10: for every fetch that resolves with an HTTP success status and a
JSON object body carrying a string message and an array-of-strings people,
the legacy component (index) and the revised component (IndexPage) reach
the same final message and people state and render the same person items
in the same order with the same positional keys. -/
theorem c10_components_agree (status : Nat) (statusText : String)
    (fields : List (String × JsValue)) (m : String) (ps : List JsValue)
    (hok : okStatus status = true)
    (hm : getField (.obj fields) "message" = .str m)
    (hp : getField (.obj fields) "people" = .arr ps)
    (hstr : ∀ x ∈ ps, ∃ nm, x = JsValue.str nm) :
    (legacyRun (.resolved status statusText (.parsed (.obj fields)))).message =
        (loadRun true
          (.resolved status statusText (.parsed (.obj fields)))).message ∧
      (legacyRun (.resolved status statusText (.parsed (.obj fields)))).people =
        .arr (loadRun true
          (.resolved status statusText (.parsed (.obj fields)))).people ∧
      legacyPersonItems
          (legacyRun (.resolved status statusText (.parsed (.obj fields)))) =
        some (indexPagePersonItems
          (loadRun true (.resolved status statusText (.parsed (.obj fields))))) := by
  simp [legacyRun, loadRun, loadSettle, loadStart, initialState, setIf,
    finallyStep, hok, hm, hp, legacyPersonItems, indexPagePersonItems,
    jsNullish, jsArrayElems]

/-- Witness for C10: the greeting document itself — both components end
with message "Hello World!" and the three people, rendered as the same
index-keyed items. -/
theorem c10_witness :
    (legacyRun (.resolved 200 "OK" (.parsed homeDocument))).message =
        (loadRun true (.resolved 200 "OK" (.parsed homeDocument))).message ∧
      (legacyRun (.resolved 200 "OK" (.parsed homeDocument))).people =
        .arr (loadRun true (.resolved 200 "OK" (.parsed homeDocument))).people ∧
      legacyPersonItems (legacyRun (.resolved 200 "OK" (.parsed homeDocument))) =
        some (indexPagePersonItems
          (loadRun true (.resolved 200 "OK" (.parsed homeDocument)))) :=
  c10_components_agree 200 "OK"
    [("message", .str "Hello World!"),
     ("people", .arr [.str "Harry", .str "Jack", .str "Mary"])]
    "Hello World!" [.str "Harry", .str "Jack", .str "Mary"]
    (by decide) rfl rfl
    (by
      intro x hx
      simp only [List.mem_cons, List.mem_singleton, List.not_mem_nil,
        or_false] at hx
      rcases hx with h | h | h <;> exact ⟨_, h⟩)
